import Mathlib

/-!
Verification of the pyrh session-lifecycle core against its specification.

The development shallowly embeds the three source modules
`pyrh/models/login.py`, `pyrh/models/workflow.py` and
`pyrh/models/sherrif.py` (the latter is a near-verbatim duplicate of
`workflow.py`; the embedding follows `workflow.py`, and every property
proved here holds of both copies by inspection).

Python values that can appear as parsed JSON bodies or as
`ast.literal_eval` results are modelled by the inductive `PyVal`.
Machine integers do not occur; Python ints are unbounded and map to `Int`.
Wall-clock time is modelled as elapsed whole seconds since the start of a
workflow: the only delays in the source are the literal `time.sleep(5)`
calls, so each sleep advances the clock by five seconds and transport
calls are instantaneous.  Loops are embedded with explicit fuel; running
out of fuel reports the elapsed time at that point, so a run that is
still inside a loop after `n` units of fuel has provably slept at least
five seconds per consumed unit.
-/

namespace Pyrh

/-- Python values reachable from parsed JSON or from `ast.literal_eval`.
Python `None` is `PyVal.none`; dictionaries are association lists with
string keys, which covers every dictionary the source constructs or
receives. -/
inductive PyVal where
  | none
  | bool (b : Bool)
  | int (n : Int)
  | str (s : String)
  | list (xs : List PyVal)
  | dict (kvs : List (String × PyVal))

/-- Python exception value: a class name and a message. -/
structure PyErr where
  name : String
  msg : String
deriving DecidableEq, Repr

/-- First-match lookup in an association list, mirroring a Python dict
access (Python dictionaries have unique keys, so first match is exact). -/
def lookupStr (k : String) : List (String × PyVal) → Option PyVal
  | [] => Option.none
  | (k2, v) :: rest => if k2 == k then Option.some v else lookupStr k rest

/-- Python truthiness (`if not x`): `None`, `False`, `0`, the empty
string, the empty list and the empty dict are falsy. -/
def truthy : PyVal → Bool
  | .none => false
  | .bool b => b
  | .int n => n != 0
  | .str s => s != ""
  | .list xs => !xs.isEmpty
  | .dict kvs => !kvs.isEmpty

/-- Whether the value is a Python dict (`isinstance(x, dict)`). -/
def PyVal.isDict : PyVal → Bool
  | .dict _ => true
  | _ => false

/-- Python `isinstance(x, int)`: true for ints and also for bools,
because `bool` is a subclass of `int` in Python. -/
def isIntPy : PyVal → Bool
  | .int _ => true
  | .bool _ => true
  | _ => false

/-- Numeric value of a Python int or bool (`True` counts as `1`). -/
def pyToInt : PyVal → Int
  | .int n => n
  | .bool b => if b then 1 else 0
  | _ => 0

/-- Python `d.get(k)` used on a value already known to be a dict, with
`None` as the default for a missing key. -/
def PyVal.getd : PyVal → String → PyVal
  | .dict kvs, k => (lookupStr k kvs).getD PyVal.none
  | _, _ => PyVal.none

/-- Python equality test of a value against a string literal: only a
string with the same contents compares equal, every other value gives
`False` (the source compares responses only against string literals). -/
def pyEqStr (v : PyVal) (s : String) : Bool :=
  match v with
  | .str t => t == s
  | _ => false

/-!
Token Cache: embedding of `pyrh/models/login.py`.

The Fernet cipher from the external `cryptography` package is modelled
as an authenticated symmetric cipher: a ciphertext remembers the
plaintext, the key it was produced with, and whether it is still intact;
decryption succeeds exactly when the ciphertext is intact and the key
matches, and otherwise raises `InvalidToken` (Fernet ciphertexts are
authenticated, so a wrong key or any tampering is always detected and
never yields wrong plaintext).  The `str(payload)` serialization before
encryption and the `ast.literal_eval` parse after decryption are
modelled as the identity on `PyVal`: every payload the module encrypts
is a dictionary of literal values, for which that pair of functions is
an exact round trip.  The pickle layer wraps bytes transparently and is
likewise absorbed.  Key-length validation performed by the Fernet
constructor is outside the module under verification and not modelled.
-/

/-- A Fernet ciphertext: the stored payload, the key used to produce it,
and an intactness flag (`intact = false` models a tampered ciphertext). -/
structure Encrypted where
  data : PyVal
  key : String
  intact : Bool

/-- Embedding of `encrypt_token` (login.py line 32): encrypt the payload
under the given key, producing an intact ciphertext. -/
def encrypt_token (payload : PyVal) (key : String) : Encrypted :=
  ⟨payload, key, true⟩

/-- Embedding of `decrypt_token` (login.py line 49): decryption succeeds
exactly when the key matches and the ciphertext is intact; `Option.none`
models the `cryptography.fernet.InvalidToken` exception. -/
def decrypt_token (c : Encrypted) (key : String) : Option PyVal :=
  if c.intact && c.key == key then Option.some c.data else Option.none

/-- State of the on-disk login file: `missing` covers both an absent
file (`FileNotFoundError`) and the empty file created on import, whose
unpickling raises `EOFError`; both exceptions are caught by
`load_existing_oauth` and mapped to `None`. -/
inductive FileState where
  | missing
  | present (c : Encrypted)

/-- Modelled from the spec: the Credential bundle (`OAuth`) lives in
`pyrh/models/oauth.py`, which is not under `src/`.  Its fields follow
the Credential description in section 3 of the spec and the token field
set exercised by the repository test suite (`access_token`,
`refresh_token`, `token_type`, `scope`, `expires_in`). -/
structure OAuth where
  access_token : String
  refresh_token : String
  token_type : String
  scope : String
  expires_in : Int
deriving DecidableEq, Repr

/-- The dictionary `data.__dict__` of an OAuth object as stored by
`save_existing_oauth`. -/
def oauthDict (o : OAuth) : PyVal :=
  .dict [("access_token", .str o.access_token),
         ("refresh_token", .str o.refresh_token),
         ("token_type", .str o.token_type),
         ("scope", .str o.scope),
         ("expires_in", .int o.expires_in)]

/-- Modelled from the spec: `OAuthSchema().load` from the missing
`pyrh/models/oauth.py` deserializes a dictionary of the Credential
fields back into an OAuth value; a dictionary not carrying the expected
fields fails schema validation. -/
def oauthSchemaLoad (v : PyVal) : Option OAuth :=
  match v.getd "access_token", v.getd "refresh_token", v.getd "token_type",
        v.getd "scope", v.getd "expires_in" with
  | .str a, .str r, .str t, .str s, .int e => Option.some ⟨a, r, t, s, e⟩
  | _, _, _, _, _ => Option.none

/-- Result of `load_existing_oauth`: a returned OAuth value, a `None`
return, the typed `InvalidCacheFile` exception, or an uncaught raw
exception escaping the function (identified by its class name). -/
inductive LoadResult where
  | ok (o : OAuth)
  | none_
  | invalidCacheFile
  | raises (name : String)
deriving DecidableEq, Repr

/-- The cache key derivation `str(username + password)[0:32]` shared by
save and load (login.py lines 81 and 115). -/
def cacheKey (username password : String) : String :=
  (username ++ password).take 32

/-- Embedding of `load_existing_oauth` (login.py line 65).  `now` is
`int(time.time())` at the moment of the call.  The except clauses of the
source catch only `AssertionError` (mapped to `InvalidCacheFile`) and
`FileNotFoundError` / `EOFError` (mapped to a `None` return); a failed
decryption therefore escapes as a raw `InvalidToken`, and a dictionary
that fails schema validation escapes as a raw `ValidationError`. -/
def load_existing_oauth (file : FileState) (username password : String)
    (now : Int) : LoadResult :=
  match file with
  | .missing => .none_
  | .present enc =>
    match decrypt_token enc (cacheKey username password) with
    | Option.none => .raises "InvalidToken"
    | Option.some json_data =>
      if json_data.isDict then
        if truthy (json_data.getd "login") then
          if truthy (json_data.getd "expiry") then
            if isIntPy (json_data.getd "expiry") then
              if pyToInt (json_data.getd "expiry") < now then .none_
              else
                if (json_data.getd "login").isDict then
                  match oauthSchemaLoad (json_data.getd "login") with
                  | Option.some o => .ok o
                  | Option.none => .raises "ValidationError"
                else .invalidCacheFile
            else .invalidCacheFile
          else .invalidCacheFile
        else .invalidCacheFile
      else .invalidCacheFile

/-- Embedding of `save_existing_oauth` (login.py line 100): compute the
expiry as `int(time.time()) + data.expires_in`, build the record with
the credential dictionary, the integer expiry and a derived
human-readable timestamp (modelled as a rendering of the epoch value,
whose exact text is irrelevant to every property below), encrypt it
under the derived key and replace the file contents. -/
def save_existing_oauth (data : OAuth) (username password : String)
    (now : Int) : FileState :=
  let expiry : Int := now + data.expires_in
  let login_data : PyVal :=
    .dict [("login", oauthDict data),
           ("expiry", .int expiry),
           ("expiration_dt", .str (toString expiry))]
  .present (encrypt_token login_data (cacheKey username password))

/-!
Verification Workflow Engine: embedding of `pyrh/models/workflow.py`.

The helpers `request_post` and `request_get` of that module catch every
transport-level failure internally (`AssertionError` on an unexpected
status code, `requests.RequestException`, JSON and HTTP errors) and
return Python `None` in that case; consequently the only values the
workflow functions ever see from the transport are a parsed JSON body or
`None`.  Responses are therefore supplied by an oracle assigning a
`PyVal` to each call of each endpoint, with `PyVal.none` standing for a
failed or unreachable request.  In particular the
`except requests.exceptions.RequestException` handler inside
`poll_workflow_status` is unreachable, because `request_post` never lets
that exception escape.

Each operation on a response value that can raise in Python (`in`
membership on a non-container, subscripting, the `.get` method on a
non-dict) is embedded in the `Except PyErr` monad so that uncaught
exceptions propagate exactly as in the source.
-/

/-- One character list starts with another. -/
def listStartsWith : List Char → List Char → Bool
  | [], _ => true
  | _ :: _, [] => false
  | a :: as, b :: bs => a == b && listStartsWith as bs

/-- One character list occurs contiguously inside another. -/
def listInside (n : List Char) : List Char → Bool
  | [] => n.isEmpty
  | b :: bs => listStartsWith n (b :: bs) || listInside n bs

/-- A string appears as a substring of another (Python `in` on str). -/
def strSubstr (needle hay : String) : Bool :=
  listInside needle.toList hay.toList

/-- Membership of a string among the elements of a Python list: only an
equal string element matches. -/
def strInList (k : String) : List PyVal → Bool
  | [] => false
  | .str s :: rest => s == k || strInList k rest
  | _ :: rest => strInList k rest

/-- Python `k in v` for a string `k`: key membership on a dict, element
membership on a list, substring test on a string, and a `TypeError` on
`None`, booleans and numbers. -/
def pyContains (k : String) (v : PyVal) : Except PyErr Bool :=
  match v with
  | .dict kvs => .ok (lookupStr k kvs).isSome
  | .list xs => .ok (strInList k xs)
  | .str s => .ok (strSubstr k s)
  | _ => .error ⟨"TypeError", "argument is not a container"⟩

/-- Python `v[k]` for a string key: lookup on a dict with `KeyError` on
a missing key, `TypeError` on every non-dict (including `None`). -/
def pySubscr (v : PyVal) (k : String) : Except PyErr PyVal :=
  match v with
  | .dict kvs =>
    match lookupStr k kvs with
    | Option.some x => .ok x
    | Option.none => .error ⟨"KeyError", k⟩
  | _ => .error ⟨"TypeError", "object is not subscriptable"⟩

/-- Python `v.get(k)` with an optional default: defined on dicts,
`AttributeError` on every other value (including `None`). -/
def pyGetD (v : PyVal) (k : String) (dflt : PyVal) : Except PyErr PyVal :=
  match v with
  | .dict kvs => .ok ((lookupStr k kvs).getD dflt)
  | _ => .error ⟨"AttributeError", "object has no attribute get"⟩

/-- Transport oracle for one run of the verification workflow: the
response to the machine registration POST, and the response streams of
the inquiry-view GET, the prompt-status GET, the challenge-respond POST
and the inquiry continue POST, each indexed by how many calls that
endpoint has received so far.  `PyVal.none` models a failed or
unreachable request (the helpers return `None` then). -/
structure Oracle where
  machineResp : PyVal
  inquiriesGet : Nat → PyVal
  promptGet : Nat → PyVal
  challengePost : Nat → PyVal
  inquiriesPost : Nat → PyVal

/-- Outcome of one whole workflow function: a normal return, an
exception escaping to the caller (class name and message), or fuel
exhaustion while still looping, carrying the elapsed seconds at that
point (each consumed fuel unit contains one five-second sleep). -/
inductive WfResult where
  | ok
  | raises (name msg : String)
  | fuel (t : Nat)
deriving DecidableEq, Repr

/-- Outcome of the prompt-status wait (`while True` loop at
workflow.py line 134). -/
inductive PromptRes where
  | done (t : Nat)
  | raised (e : PyErr)
  | fuelOut (t : Nat)
deriving DecidableEq, Repr

/-- Embedding of the prompt-status wait (workflow.py lines 134 to 140):
sleep five seconds, fetch the prompt status, subscript the response at
`challenge_status` (raising on an absent or non-dict response), and stop
only when the status string equals `validated`.  The loop condition in
the source is literally `True`: no deadline is consulted. -/
def promptLoop (stream : Nat → PyVal) (t j : Nat) : Nat → PromptRes
  | 0 => .fuelOut t
  | Nat.succ f =>
    let t2 := t + 5
    match pySubscr (stream j) "challenge_status" with
    | .error e => .raised e
    | .ok v =>
      if pyEqStr v "validated" then .done t2
      else promptLoop stream t2 (j + 1) f

/-- Outcome of one body of the challenge-detection loop. -/
inductive BodyRes where
  | next (t i k : Nat)
  | exitLoop (t : Nat)
  | raised (e : PyErr)
  | fuelOut (t : Nat)
deriving DecidableEq, Repr

/-- Embedding of one body of the challenge-detection loop
(workflow.py lines 113 to 160), entered after the five-second sleep at
the top of the loop; `t` already includes that sleep.  `i` counts the
inquiry-view GETs issued so far and `k` the challenge-respond POSTs.
A falsy response continues the loop; a detected `prompt` challenge
enters the unbounded prompt wait; an already `validated` status breaks;
an `issued` sms or email challenge submits the solicited code (the code
itself only feeds the request payload, which the oracle abstracts) and
breaks exactly when the submission response reports `validated`. -/
def outerBody (o : Oracle) (t i k : Nat) (f : Nat) : BodyRes :=
  let r := o.inquiriesGet i
  if truthy r = false then .next t (i + 1) k
  else
    match pyContains "context" r with
    | .error e => .raised e
    | .ok false => .next t (i + 1) k
    | .ok true =>
      match pySubscr r "context" with
      | .error e => .raised e
      | .ok ctx =>
        match pyContains "sheriff_challenge" ctx with
        | .error e => .raised e
        | .ok false => .next t (i + 1) k
        | .ok true =>
          match pySubscr ctx "sheriff_challenge" with
          | .error e => .raised e
          | .ok ch =>
            match pySubscr ch "type" with
            | .error e => .raised e
            | .ok ctype =>
              match pySubscr ch "status" with
              | .error e => .raised e
              | .ok cstatus =>
                match pySubscr ch "id" with
                | .error e => .raised e
                | .ok _ =>
                  if pyEqStr ctype "prompt" then
                    match promptLoop o.promptGet t 0 f with
                    | .done t2 => .exitLoop t2
                    | .raised e => .raised e
                    | .fuelOut t2 => .fuelOut t2
                  else if pyEqStr cstatus "validated" then .exitLoop t
                  else if (pyEqStr ctype "sms" || pyEqStr ctype "email")
                          && pyEqStr cstatus "issued" then
                    match pyGetD (o.challengePost k) "status" PyVal.none with
                    | .error e => .raised e
                    | .ok v =>
                      if pyEqStr v "validated" then .exitLoop t
                      else .next t (i + 1) (k + 1)
                  else .next t (i + 1) k

/-- Outcome of the challenge-detection loop as a whole. -/
inductive OuterRes where
  | finished (t : Nat)
  | raised (e : PyErr)
  | fuelOut (t : Nat)
deriving DecidableEq, Repr

/-- Embedding of the challenge-detection loop (workflow.py line 112):
while fewer than 120 seconds have elapsed since the workflow started,
sleep five seconds and run the body; leaving the loop by `break` or by
the deadline proceeds to the workflow-status confirmation. -/
def outerLoop (o : Oracle) (t i k : Nat) : Nat → OuterRes
  | 0 => .fuelOut t
  | Nat.succ f =>
    if t < 120 then
      match outerBody o (t + 5) i k f with
      | .next t2 i2 k2 => outerLoop o t2 i2 k2 f
      | .exitLoop t2 => .finished t2
      | .raised e => .raised e
      | .fuelOut t2 => .fuelOut t2
    else .finished t

/-- Embedding of line 222 of workflow.py: the nested workflow status
extraction `inquiries_response.get("verification_workflow", {}).get("workflow_status")`,
raising `AttributeError` whenever `.get` is invoked on a non-dict. -/
def nestedStatus (r : PyVal) : Except PyErr PyVal :=
  match pyGetD r "verification_workflow" (PyVal.dict []) with
  | .error e => .error e
  | .ok vw => pyGetD vw "workflow_status" PyVal.none

/-- Outcome of one body of the workflow-status confirmation loop. -/
inductive StepRes where
  | approved
  | next (t : Nat) (retries : Int)
  | raised (e : PyErr)
deriving DecidableEq, Repr

/-- Continuation of one confirmation body after the `else` branch of the
try block has slept five seconds (workflow.py lines 212 to 236): a falsy
response sleeps another five seconds and consumes a retry unit; otherwise
the nested workflow status decides between returning, keeping the budget,
and consuming a unit; a budget reaching zero raises `TimeoutError`. -/
def pollAfter (r : PyVal) (t : Nat) (retries : Int) : StepRes :=
  if truthy r = false then
    let retries2 := retries - 1
    if retries2 = 0 then
      .raised ⟨"TimeoutError",
               "Max retries reached. Assuming login approved and proceeding."⟩
    else .next (t + 5) retries2
  else
    match nestedStatus r with
    | .error e => .raised e
    | .ok ws =>
      if pyEqStr ws "workflow_status_approved" then .approved
      else if pyEqStr ws "workflow_status_internal_pending" then .next t retries
      else
        let retries2 := retries - 1
        if retries2 = 0 then
          .raised ⟨"TimeoutError",
                   "Max retries reached. Assuming login approved and proceeding."⟩
        else .next t retries2

/-- Embedding of one body of the workflow-status confirmation loop
(workflow.py lines 184 to 236) on the response `r` of this iteration
continue POST.  The try block protects only against
`requests.RequestException`, which `request_post` never raises, so the
membership test and the subscripts on `r` raise uncaught exceptions when
`r` is absent or ill-shaped; an approved top-level `type_context` result
returns immediately, and every other outcome sleeps five seconds before
the falsy test. -/
def pollStep (r : PyVal) (t : Nat) (retries : Int) : StepRes :=
  match pyContains "type_context" r with
  | .error e => .raised e
  | .ok true =>
    match pySubscr r "type_context" with
    | .error e => .raised e
    | .ok tc =>
      match pySubscr tc "result" with
      | .error e => .raised e
      | .ok v =>
        if pyEqStr v "workflow_status_approved" then .approved
        else pollAfter r (t + 5) retries
  | .ok false => pollAfter r (t + 5) retries

/-- Embedding of the workflow-status confirmation loop
(workflow.py line 183): while fewer than 120 seconds have elapsed since
workflow start, POST the continue directive and run the body; leaving
the loop through the deadline raises the final `TimeoutError` of
line 238.  `m` counts the continue POSTs issued so far. -/
def pollLoop (stream : Nat → PyVal) (m t : Nat) (retries : Int) :
    Nat → WfResult
  | 0 => .fuel t
  | Nat.succ f =>
    if t < 120 then
      match pollStep (stream m) t retries with
      | .approved => .ok
      | .raised e => .raises e.name e.msg
      | .next t2 r2 => pollLoop stream (m + 1) t2 r2 f
    else
      .raises "TimeoutError"
        "Timeout reached. Assuming login is approved and proceeding."

/-- Embedding of `poll_workflow_status` (workflow.py line 164): the
confirmation loop starts with a budget of five retry units and with the
clock at `t0`, the elapsed time inherited from the challenge-detection
phase (the source shares `start_time` between the two phases). -/
def poll_workflow_status (stream : Nat → PyVal) (t0 : Nat) (f : Nat) :
    WfResult :=
  pollLoop stream 0 t0 5 f

/-- Embedding of `verify_workflow` (workflow.py line 83): register the
machine (the subscript `machine_data["id"]` raises `TypeError` on an
absent response and `KeyError` on a response without an id, and no
handler catches either), then run the challenge-detection loop from
elapsed time zero, then confirm the workflow status. -/
def verify_workflow (o : Oracle) (f : Nat) : WfResult :=
  match pySubscr o.machineResp "id" with
  | .error e => .raises e.name e.msg
  | .ok _ =>
    match outerLoop o 0 0 0 f with
    | .raised e => .raises e.name e.msg
    | .fuelOut t => .fuel t
    | .finished t => poll_workflow_status o.inquiriesPost t f

/-!
Concrete fixtures used by the theorems below.
-/

/-- A structurally valid cache record encrypted under the secret derived
from username `alice` and password `pw1`. -/
def fileAlice : FileState :=
  .present (encrypt_token
    (PyVal.dict [("login", .dict [("a", .str "b")]), ("expiry", .int 99)])
    (cacheKey "alice" "pw1"))

/-- A cache record whose `login` value is a string rather than a mapping
and whose expiry (epoch second 1) lies in the past. -/
def fileStaleJunkLogin : FileState :=
  .present (encrypt_token
    (PyVal.dict [("login", .str "junk"), ("expiry", .int 1)])
    (cacheKey "u" "p"))

/-- An inquiry-view response announcing a prompt-type sheriff
challenge. -/
def promptChallengeResp : PyVal :=
  .dict [("context", .dict [("sheriff_challenge",
    .dict [("type", .str "prompt"), ("status", .str "issued"),
           ("id", .str "c1")])])]

/-- Oracle for a run that detects a prompt challenge whose status never
becomes validated: every prompt-status poll answers `waiting`. -/
def oPromptPending : Oracle :=
  { machineResp := .dict [("id", .str "m1")]
    inquiriesGet := fun _ => promptChallengeResp
    promptGet := fun _ => .dict [("challenge_status", .str "waiting")]
    challengePost := fun _ => PyVal.none
    inquiriesPost := fun _ => PyVal.none }

/-- Oracle for a run that detects a prompt challenge and then gets no
response at all from the prompt-status endpoint. -/
def oPromptUnreachable : Oracle :=
  { oPromptPending with promptGet := fun _ => PyVal.none }

/-- Oracle for a run whose machine registration request fails, so that
`request_post` hands `None` to `verify_workflow`. -/
def oMachineAbsent : Oracle :=
  { oPromptPending with machineResp := PyVal.none }

/-- A confirmation response carrying only the nested workflow status
`s`, the shape the claims about the confirmation loop describe. -/
def mkStatusResp (s : String) : PyVal :=
  .dict [("verification_workflow", .dict [("workflow_status", .str s)])]

/-- A prompt-status response that is present and well-shaped but whose
`challenge_status` differs from `validated`. -/
def nonValidatedPrompt (p : PyVal) : Bool :=
  match pySubscr p "challenge_status" with
  | .ok v => !(pyEqStr v "validated")
  | .error _ => false

/-- The five corrupt-record shapes enumerated by the specification,
with the carve-out the source imposes: a non-mapping `login` value is
only reached by the shape checks when the record is not yet expired. -/
def corruptShape (v : PyVal) (now : Int) : Bool :=
  !v.isDict
  || !truthy (v.getd "login")
  || !truthy (v.getd "expiry")
  || !isIntPy (v.getd "expiry")
  || (!(decide (pyToInt (v.getd "expiry") < now))
      && !(v.getd "login").isDict)

/-!
Supporting lemmas.
-/

/-- Decrypting with the key that produced the ciphertext recovers the
payload. -/
theorem decrypt_encrypt (v : PyVal) (k : String) :
    decrypt_token (encrypt_token v k) k = Option.some v := by
  simp [encrypt_token, decrypt_token]

/-- Subscripting a Python value by a string key can only fail with a
`KeyError` or a `TypeError`. -/
theorem pySubscr_error_name (v : PyVal) (k : String) (e : PyErr)
    (h : pySubscr v k = .error e) :
    e.name = "TypeError" ∨ e.name = "KeyError" := by
  cases v <;> simp [pySubscr] at h <;> try simp [← h]
  case dict kvs =>
    rcases hl : lookupStr k kvs with _ | x <;> rw [hl] at h <;>
      simp at h
    simp [← h]

/-- The schema load of a stored credential dictionary recovers the
credential. -/
theorem oauthSchemaLoad_oauthDict (o : OAuth) :
    oauthSchemaLoad (oauthDict o) = Option.some o := by
  simp [oauthSchemaLoad, oauthDict, PyVal.getd, lookupStr]

/-!
Claims about the Token Cache.
-/

/-- C1: the claim states that a cache record whose ciphertext cannot be
decrypted with the secret derived from the username and password makes
`load_existing_oauth` fail with `InvalidCacheFile` and never propagate a
raw decoding exception.  Evaluating the embedding at a record encrypted
under the secret of password `pw1` and loaded with password `pw2` shows
the code instead lets the raw `InvalidToken` exception escape: the
except clauses of the source catch only `AssertionError`,
`FileNotFoundError` and `EOFError`, so the decryption failure is never
converted to `InvalidCacheFile`. -/
theorem C1_wrong_secret_raises_raw_invalid_token :
    load_existing_oauth fileAlice "alice" "pw2" 0
      = LoadResult.raises "InvalidToken"
    ∧ load_existing_oauth fileAlice "alice" "pw2" 0
      ≠ LoadResult.invalidCacheFile := by
  constructor <;> set_option maxRecDepth 4000 in decide

/-- C5 counterexample: a record whose `login` value is a non-mapping but
whose integer expiry has already passed is returned as absent, not
rejected as corrupt, so the claim that every record with a non-mapping
`login` value raises `InvalidCacheFile` is false. -/
theorem C5_stale_nondict_login_returns_absent :
    load_existing_oauth fileStaleJunkLogin "u" "p" 1000 = LoadResult.none_
    ∧ load_existing_oauth fileStaleJunkLogin "u" "p" 1000
      ≠ LoadResult.invalidCacheFile := by
  constructor <;> set_option maxRecDepth 4000 in decide

/-- C5 as amended: a decrypted record that has a non-mapping root, or a
missing (or falsy) `login` key, or a missing (or falsy) `expiry` key, or
a non-integer `expiry` value, or a non-mapping `login` value in a record
whose expiry has not yet passed, makes `load_existing_oauth` raise
`InvalidCacheFile`; the only shape violation exempted is a non-mapping
`login` value in an already-expired record, which returns absent. -/
theorem C5_corrupt_record_rejected (v : PyVal) (now : Int) (u p : String)
    (h : corruptShape v now = true) :
    load_existing_oauth (.present (encrypt_token v (cacheKey u p))) u p now
      = LoadResult.invalidCacheFile := by
  simp only [load_existing_oauth, decrypt_encrypt]
  by_cases h1 : v.isDict
  case neg => simp [h1]
  case pos =>
  simp only [h1, if_true]
  by_cases h2 : truthy (v.getd "login")
  case neg => simp [h2]
  case pos =>
  simp only [h2, if_true]
  by_cases h3 : truthy (v.getd "expiry")
  case neg => simp [h3]
  case pos =>
  simp only [h3, if_true]
  by_cases h4 : isIntPy (v.getd "expiry")
  case neg => simp [h4]
  case pos =>
  simp only [h4, if_true]
  by_cases h5 : pyToInt (v.getd "expiry") < now
  · exfalso
    simp [corruptShape, h1, h2, h3, h4, h5] at h
  · by_cases h6 : (v.getd "login").isDict
    · exfalso
      simp [corruptShape, h1, h2, h3, h4, h5, h6] at h
    · simp [h5, h6]

/-- C5 witness: a record that parses to a bare string is rejected as
corrupt. -/
theorem C5_corrupt_witness :
    corruptShape (PyVal.str "gibberish") 0 = true
    ∧ load_existing_oauth
        (.present (encrypt_token (PyVal.str "gibberish") (cacheKey "u" "p")))
        "u" "p" 0
      = LoadResult.invalidCacheFile :=
  ⟨by decide,
   C5_corrupt_record_rejected (PyVal.str "gibberish") 0 "u" "p" (by decide)⟩

/-- C6: a credential saved with `save_existing_oauth` and loaded with
`load_existing_oauth` under the same username and password, at any
non-negative time strictly before the stored expiry, is returned equal
to the credential that was saved. -/
theorem C6_save_load_round_trip (o : OAuth) (u p : String) (nowS nowL : Int)
    (h0 : 0 ≤ nowL) (h1 : nowL < nowS + o.expires_in) :
    load_existing_oauth (save_existing_oauth o u p nowS) u p nowL
      = LoadResult.ok o := by
  have he : nowS + o.expires_in ≠ 0 := by omega
  have hlt : ¬ (nowS + o.expires_in < nowL) := by omega
  simp [save_existing_oauth, load_existing_oauth, decrypt_encrypt,
        PyVal.getd, lookupStr, truthy, isIntPy, pyToInt, PyVal.isDict,
        oauthDict, he, hlt, oauthSchemaLoad]

/-- C6 witness: a concrete credential saved at epoch second 100 with a
1000-second lifetime and loaded at epoch second 600 round-trips. -/
theorem C6_round_trip_witness :
    (0 : Int) ≤ 600 ∧ (600 : Int) < 100 + 1000
    ∧ load_existing_oauth
        (save_existing_oauth ⟨"tok", "ref", "Bearer", "internal", 1000⟩
          "user" "pass" 100)
        "user" "pass" 600
      = LoadResult.ok ⟨"tok", "ref", "Bearer", "internal", 1000⟩ :=
  ⟨by norm_num, by norm_num,
   C6_save_load_round_trip ⟨"tok", "ref", "Bearer", "internal", 1000⟩
     "user" "pass" 100 600 (by norm_num) (by norm_num)⟩

/-- C8: a record passing every structural check of the source (mapping
root, truthy mapping `login`, truthy integer `expiry`) whose expiry lies
before the current time makes `load_existing_oauth` return absent, not
an error. -/
theorem C8_expired_record_absent (v : PyVal) (now : Int) (u p : String)
    (h1 : v.isDict = true) (h2 : truthy (v.getd "login") = true)
    (_h3 : (v.getd "login").isDict = true)
    (h4 : truthy (v.getd "expiry") = true)
    (h5 : isIntPy (v.getd "expiry") = true)
    (h6 : pyToInt (v.getd "expiry") < now) :
    load_existing_oauth (.present (encrypt_token v (cacheKey u p))) u p now
      = LoadResult.none_ := by
  simp [load_existing_oauth, decrypt_encrypt, h1, h2, h4, h5, h6]

/-- C8 witness: a structurally valid record with expiry 5 loaded at time
100 is reported absent. -/
theorem C8_expired_witness :
    load_existing_oauth
      (.present (encrypt_token
        (PyVal.dict [("login", .dict [("a", .str "b")]), ("expiry", .int 5)])
        (cacheKey "u" "p"))) "u" "p" 100
      = LoadResult.none_ :=
  C8_expired_record_absent _ 100 "u" "p" (by decide) (by decide) (by decide)
    (by decide) (by decide) (by decide)

/-- C10: the expiry comparison of `load_existing_oauth` precedes the
shape check on the `login` value, so a record with a truthy non-mapping
`login` and a truthy integer expiry lying in the past returns absent and
is never classified as corrupt. -/
theorem C10_expiry_before_login_shape (v : PyVal) (now : Int) (u p : String)
    (h1 : v.isDict = true) (h2 : truthy (v.getd "login") = true)
    (_h3 : (v.getd "login").isDict = false)
    (h4 : truthy (v.getd "expiry") = true)
    (h5 : isIntPy (v.getd "expiry") = true)
    (h6 : pyToInt (v.getd "expiry") < now) :
    load_existing_oauth (.present (encrypt_token v (cacheKey u p))) u p now
      = LoadResult.none_ := by
  simp [load_existing_oauth, decrypt_encrypt, h1, h2, h4, h5, h6]

/-- C10 witness: an expired record whose `login` value is the string
`zzz` is reported absent rather than corrupt. -/
theorem C10_witness :
    load_existing_oauth
      (.present (encrypt_token
        (PyVal.dict [("login", .str "zzz"), ("expiry", .int 7)])
        (cacheKey "x" "y"))) "x" "y" 50
      = LoadResult.none_ :=
  C10_expiry_before_login_shape _ 50 "x" "y" (by decide) (by decide)
    (by decide) (by decide) (by decide) (by decide)

/-!
Claims about the Verification Workflow Engine.
-/

/-- A prompt-status stream whose status is never validated. -/
def waitingPromptStream : Nat → PyVal :=
  fun _ => PyVal.dict [("challenge_status", PyVal.str "waiting")]

/-- A response stream on which every request fails, so the transport
helpers hand `None` to the workflow. -/
def absentStream : Nat → PyVal := fun _ => PyVal.none

/-- C2 as amended: the prompt-status wait is not bounded by the
120-second deadline.  As long as every prompt-status response is present
and carries a `challenge_status` other than `validated`, the wait is
still running after arbitrarily many iterations, each containing a
five-second sleep, with the elapsed clock growing without bound; the
`while True` loop of the source consults no deadline at all. -/
theorem C2_prompt_wait_never_ends (stream : Nat → PyVal)
    (h : ∀ k, nonValidatedPrompt (stream k) = true) :
    ∀ (n t j : Nat),
      promptLoop stream t j n = PromptRes.fuelOut (t + 5 * n) := by
  intro n
  induction n with
  | zero => intro t j; simp [promptLoop]
  | succ f ih =>
    intro t j
    have hj := h j
    unfold nonValidatedPrompt at hj
    unfold promptLoop
    rcases hs : pySubscr (stream j) "challenge_status" with e | v
    · rw [hs] at hj; simp at hj
    · rw [hs] at hj
      simp only [Bool.not_eq_true'] at hj
      simp only [hs, hj, if_false, Bool.false_eq_true]
      rw [ih (t + 5) (j + 1)]
      congr 1
      ring

/-- C2 witness: after 25 never-validated prompt polls the wait is still
running with 125 seconds of sleep on the clock, already past the
120-second deadline. -/
theorem C2_witness :
    (∀ k, nonValidatedPrompt (waitingPromptStream k) = true)
    ∧ promptLoop waitingPromptStream 0 0 25
      = PromptRes.fuelOut (0 + 5 * 25) :=
  ⟨fun _ => rfl,
   C2_prompt_wait_never_ends waitingPromptStream (fun _ => rfl) 25 0 0⟩

/-- C2 counterexample: a workflow run that detects a prompt challenge
whose status never validates is still inside the prompt wait after 30
loop iterations, that is with 150 seconds of sleeps elapsed since the
workflow started, so the wait does not terminate within the 120-second
deadline as the claim states. -/
theorem C2_deadline_violated :
    verify_workflow oPromptPending 30 = WfResult.fuel 150 := by
  set_option maxRecDepth 8000 in decide

/-- C3 as amended: in the workflow-status confirmation loop, a response
whose nested workflow status is neither approved nor internal-pending
consumes exactly one of the 5 retry units after a five-second backoff,
and exhausting the budget raises the explicit `TimeoutError`; but a
transport failure (an absent response) does not consume a retry unit:
the membership test applied to the absent response raises an uncaught
`TypeError` that escapes the workflow. -/
theorem C3_budget_and_transport (s : String) (t : Nat) (n : Int)
    (ha : s ≠ "workflow_status_approved")
    (hp : s ≠ "workflow_status_internal_pending") :
    (n - 1 ≠ 0 →
      pollStep (mkStatusResp s) t n = StepRes.next (t + 5) (n - 1))
    ∧ pollStep (mkStatusResp s) t 1 = StepRes.raised
        ⟨"TimeoutError",
         "Max retries reached. Assuming login approved and proceeding."⟩
    ∧ pollStep PyVal.none t n
      = StepRes.raised ⟨"TypeError", "argument is not a container"⟩ := by
  refine ⟨?_, ?_, rfl⟩
  · intro hn
    simp [pollStep, mkStatusResp, pyContains, lookupStr, pollAfter, truthy,
          nestedStatus, pyGetD, pyEqStr, ha, hp, hn]
  · simp [pollStep, mkStatusResp, pyContains, lookupStr, pollAfter, truthy,
          nestedStatus, pyGetD, pyEqStr, ha, hp]

/-- C3 witness: with an unclear nested status the budget drops from 5 to
4 after a five-second backoff, a budget of 1 raises the retries-reached
`TimeoutError`, and an absent response raises `TypeError`. -/
theorem C3_witness :
    pollStep (mkStatusResp "workflow_status_unclear") 0 5
      = StepRes.next 5 4
    ∧ pollStep (mkStatusResp "workflow_status_unclear") 0 1
      = StepRes.raised
        ⟨"TimeoutError",
         "Max retries reached. Assuming login approved and proceeding."⟩
    ∧ pollStep PyVal.none 0 5
      = StepRes.raised ⟨"TypeError", "argument is not a container"⟩ :=
  ⟨(C3_budget_and_transport "workflow_status_unclear" 0 5 (by decide)
      (by decide)).1 (by decide),
   (C3_budget_and_transport "workflow_status_unclear" 0 5 (by decide)
      (by decide)).2.1,
   (C3_budget_and_transport "workflow_status_unclear" 0 5 (by decide)
      (by decide)).2.2⟩

/-- C3 counterexample: the claim states that a transport failure
consumes one retry unit with a five-second backoff; instead, a
confirmation run whose continue POST gets no response crashes at once
with an uncaught `TypeError`, with the full 5-unit budget intact. -/
theorem C3_transport_failure_crashes_poll :
    poll_workflow_status (fun _ => PyVal.none) 0 10
      = WfResult.raises "TypeError" "argument is not a container" := by
  decide

/-- C4 as amended: of the three polling loops, only the inquiry-view
loop absorbs an empty or unreachable response and keeps polling; the
prompt-status loop raises an uncaught `TypeError` when its response is
absent, and the workflow-status confirmation loop likewise raises an
uncaught `TypeError` on an absent response. -/
theorem C4_transient_responses :
    (∀ (o : Oracle) (t i k f : Nat), truthy (o.inquiriesGet i) = false →
        outerBody o t i k f = BodyRes.next t (i + 1) k)
    ∧ (∀ (stream : Nat → PyVal) (t j f : Nat), stream j = PyVal.none →
        promptLoop stream t j (f + 1)
          = PromptRes.raised ⟨"TypeError", "object is not subscriptable"⟩)
    ∧ (∀ (t : Nat) (n : Int), pollStep PyVal.none t n
        = StepRes.raised ⟨"TypeError", "argument is not a container"⟩) := by
  refine ⟨?_, ?_, fun t n => rfl⟩
  · intro o t i k f h
    simp [outerBody, h]
  · intro stream t j f h
    simp [promptLoop, h, pySubscr]

/-- C4 witness: the prompt loop crashes on the very first absent
response, and the confirmation step crashes on an absent response. -/
theorem C4_witness :
    truthy (absentStream 0) = false
    ∧ absentStream 0 = PyVal.none
    ∧ promptLoop absentStream 0 0 4
      = PromptRes.raised ⟨"TypeError", "object is not subscriptable"⟩
    ∧ pollStep PyVal.none 3 5
      = StepRes.raised ⟨"TypeError", "argument is not a container"⟩ :=
  ⟨rfl, rfl,
   C4_transient_responses.2.1 absentStream 0 0 3 rfl,
   C4_transient_responses.2.2 3 5⟩

/-- C4 counterexample: a workflow run that detects a prompt challenge
and then finds the prompt-status endpoint unreachable propagates an
untyped `TypeError` out of the workflow, so the claim that every polling
loop absorbs unreachable responses is false. -/
theorem C4_prompt_poll_crash :
    verify_workflow oPromptUnreachable 5
      = WfResult.raises "TypeError" "object is not subscriptable" := by
  set_option maxRecDepth 8000 in decide

/-- C7 as amended: when the machine-registration response lacks an
identifiable id, `verify_workflow` propagates the raw exception of the
subscript `machine_data["id"]` — a `TypeError` for an absent or
non-dict response, a `KeyError` for a dict without the key — and no
typed `WorkflowInitError` exists anywhere in the source. -/
theorem C7_missing_machine_id_untyped (o : Oracle) (f : Nat) (e : PyErr)
    (h : pySubscr o.machineResp "id" = .error e) :
    verify_workflow o f = WfResult.raises e.name e.msg
    ∧ (e.name = "TypeError" ∨ e.name = "KeyError") := by
  refine ⟨?_, pySubscr_error_name _ _ _ h⟩
  simp [verify_workflow, h]

/-- C7 witness: a failed registration request makes the workflow raise
`TypeError`. -/
theorem C7_witness :
    pySubscr oMachineAbsent.machineResp "id"
      = Except.error ⟨"TypeError", "object is not subscriptable"⟩
    ∧ verify_workflow oMachineAbsent 3
      = WfResult.raises "TypeError" "object is not subscriptable"
    ∧ ("TypeError" = "TypeError" ∨ "TypeError" = "KeyError") :=
  ⟨rfl,
   (C7_missing_machine_id_untyped oMachineAbsent 3
      ⟨"TypeError", "object is not subscriptable"⟩ rfl).1,
   (C7_missing_machine_id_untyped oMachineAbsent 3
      ⟨"TypeError", "object is not subscriptable"⟩ rfl).2⟩

/-- C7 counterexample: with an absent registration response the entry
step raises a raw `TypeError`, not the typed `WorkflowInitError` the
claim states. -/
theorem C7_machine_absent_crashes :
    verify_workflow oMachineAbsent 5
      = WfResult.raises "TypeError" "object is not subscriptable" := by
  decide

/-- C9: a confirmation response carrying the nested status
`workflow_status_internal_pending` leaves the retry budget unchanged and
the loop keeps polling after the five-second backoff. -/
theorem C9_internal_pending_keeps_budget (r : PyVal) (t : Nat) (n : Int)
    (h1 : pyContains "type_context" r = .ok false)
    (h2 : truthy r = true)
    (h3 : nestedStatus r
      = .ok (PyVal.str "workflow_status_internal_pending")) :
    pollStep r t n = StepRes.next (t + 5) n := by
  simp [pollStep, h1, pollAfter, h2, h3, pyEqStr]

/-- C9 witness: an internal-pending response leaves a budget of 5
untouched. -/
theorem C9_witness :
    pyContains "type_context"
      (mkStatusResp "workflow_status_internal_pending") = .ok false
    ∧ truthy (mkStatusResp "workflow_status_internal_pending") = true
    ∧ nestedStatus (mkStatusResp "workflow_status_internal_pending")
      = .ok (PyVal.str "workflow_status_internal_pending")
    ∧ pollStep (mkStatusResp "workflow_status_internal_pending") 0 5
      = StepRes.next 5 5 :=
  ⟨rfl, rfl, rfl,
   C9_internal_pending_keeps_budget
     (mkStatusResp "workflow_status_internal_pending") 0 5 rfl rfl rfl⟩

end Pyrh

